import Mathlib

/-!
Verification of the discount-allocation core (`clean_transaction_data` in
`src/main.py`) of the `discountprop` repository.  The pandas pipeline is
shallowly embedded over lists of records; pandas nulls (NaN) are `none`,
numeric columns are exact rationals (`myr_points_redeemed_value` keeps its
nullability because line 77 of the source guards it with `pd.notna`).
-/

namespace DiscountProp

/-- One raw input row of the transaction table, with the columns the source
reads.  `none` models a pandas null cell. -/
structure Row where
  created_at_myt : Option String
  order_number : Option String
  customer_email : Option String
  CarrierCode : Option String
  item_name : Option String
  item_ref_id : Option String
  item_quantity : ℚ
  myr_item_unit_amount : ℚ
  myr_total_amount : ℚ
  myr_paid_amount : ℚ
  myr_points_redeemed_value : Option ℚ
  discountName : Option String
deriving DecidableEq, Repr

/-- pandas `astype(str)` renders a null cell as the literal string `"nan"`. -/
def cellStr : Option String → String
  | some s => s
  | none => "nan"

/-- Line 21 of the source: `unique_key = order_number.astype(str) + '_' + item_ref_id.astype(str)`. -/
def ukey (r : Row) : String :=
  cellStr r.order_number ++ "_" ++ cellStr r.item_ref_id

/-- Line 24: rows whose `discountName` is not null (`notna`). -/
def discountRowsOf (rows : List Row) : List Row :=
  rows.filter (fun r => r.discountName.isSome)

/-- Line 25: rows whose `discountName` is null (`isna`). -/
def baseRowsOf (rows : List Row) : List Row :=
  rows.filter (fun r => r.discountName.isNone)

/-- Lines 28-29: if there are no base rows, the whole table is used as the base rows. -/
def effectiveBaseRows (rows : List Row) : List Row :=
  if baseRowsOf rows = [] then rows else baseRowsOf rows

/-- The rows of a table sharing a given `unique_key`. -/
def keyGroup (rows : List Row) (k : String) : List Row :=
  rows.filter (fun r => ukey r == k)

/-- pandas `GroupBy.first` semantics: column by column, the first non-null
value of the group (`findSome?`); a never-null column just yields the first
row's value. -/
def mergeGroup (g : List Row) : Row :=
  { created_at_myt := g.findSome? (fun r => r.created_at_myt)
    order_number := g.findSome? (fun r => r.order_number)
    customer_email := g.findSome? (fun r => r.customer_email)
    CarrierCode := g.findSome? (fun r => r.CarrierCode)
    item_name := g.findSome? (fun r => r.item_name)
    item_ref_id := g.findSome? (fun r => r.item_ref_id)
    item_quantity := (g.head?.map (fun r => r.item_quantity)).getD 0
    myr_item_unit_amount := (g.head?.map (fun r => r.myr_item_unit_amount)).getD 0
    myr_total_amount := (g.head?.map (fun r => r.myr_total_amount)).getD 0
    myr_paid_amount := (g.head?.map (fun r => r.myr_paid_amount)).getD 0
    myr_points_redeemed_value := g.findSome? (fun r => r.myr_points_redeemed_value)
    discountName := g.findSome? (fun r => r.discountName) }

/-- Lexicographic comparison of character lists by code point. -/
def charListLe : List Char → List Char → Bool
  | [], _ => true
  | _ :: _, [] => false
  | a :: as, b :: bs => if a < b then true else if b < a then false else charListLe as bs

/-- Lexicographic string comparison (the order pandas sorts group keys by). -/
def strLe (a b : String) : Bool :=
  charListLe a.data b.data

/-- Insertion into a list sorted by `strLe`. -/
def insertKey (k : String) : List String → List String
  | [] => [k]
  | x :: xs => if strLe k x then k :: x :: xs else x :: insertKey k xs

/-- Sorting of the group keys in ascending string order, as
`groupby(sort=True)` does. -/
def sortKeys (ks : List String) : List String :=
  ks.foldr insertKey []

/-- Line 32: `base_rows.groupby('unique_key').first().reset_index()` — one
merged representative per distinct `unique_key`, keys in ascending order. -/
def dedupRows (rows : List Row) : List Row :=
  (sortKeys (rows.map ukey).dedup).map (fun k => mergeGroup (keyGroup rows k))

/-- pandas `==` on two cells: a null cell compares unequal to everything,
itself included. -/
def eqCell (a b : Option String) : Bool :=
  match a, b with
  | some x, some y => x == y
  | _, _ => false

/-- Line 55: `item_total = item_price * quantity`. -/
def itemTotal (r : Row) : ℚ :=
  r.myr_item_unit_amount * r.item_quantity

/-- Lines 41-44 and 65-68: discount rows matched by `order_number` and
`item_ref_id` equality. -/
def matchingDiscounts (drows : List Row) (o i : Option String) : List Row :=
  drows.filter (fun d => eqCell d.order_number o && eqCell d.item_ref_id i)

/-- Line 47: all deduplicated rows whose `order_number` equals the current
row's `order_number`. -/
def orderItemsOf (deduped : List Row) (r : Row) : List Row :=
  deduped.filter (fun x => eqCell x.order_number r.order_number)

/-- Line 50: `(order_items.myr_item_unit_amount * order_items.item_quantity).sum()`. -/
def orderItemsTotal (deduped : List Row) (r : Row) : ℚ :=
  ((orderItemsOf deduped r).map itemTotal).sum

/-- Lines 60-71: the order discount accumulated over the order's items,
adding `item_val - paid_val` exactly when the item has at least one matching
discount row. -/
def totalOrderDiscount (deduped drows : List Row) (r : Row) : ℚ :=
  ((orderItemsOf deduped r).map (fun x =>
    if matchingDiscounts drows r.order_number x.item_ref_id = [] then 0
    else itemTotal x - x.myr_paid_amount)).sum

/-- Line 58: `item_total / order_items_total if order_items_total > 0 else 0`. -/
def itemProportion (deduped : List Row) (r : Row) : ℚ :=
  if 0 < orderItemsTotal deduped r then itemTotal r / orderItemsTotal deduped r else 0

/-- Line 74: `allocated_discount = total_order_discount * item_proportion`. -/
def allocatedDiscount (deduped drows : List Row) (r : Row) : ℚ :=
  totalOrderDiscount deduped drows r * itemProportion deduped r

/-- Line 77: points redeemed, defaulting a null cell to 0. -/
def pointsOf (r : Row) : ℚ :=
  r.myr_points_redeemed_value.getD 0

/-- Line 83: the first matching discount row's name if one exists, else `''`. -/
def discountNameOf (drows : List Row) (r : Row) : String :=
  (((matchingDiscounts drows r.order_number r.item_ref_id).head?).bind
    (fun d => d.discountName)).getD ""

/-- Python `round` to the nearest integer, halves to the even neighbour. -/
def roundHalfEven (x : ℚ) : ℤ :=
  if x - Int.floor x < 1/2 then Int.floor x
  else if 1/2 < x - Int.floor x then Int.floor x + 1
  else if Int.floor x % 2 = 0 then Int.floor x else Int.floor x + 1

/-- Python `round(x, 2)` on exact rationals. -/
def round2 (x : ℚ) : ℚ :=
  (roundHalfEven (x * 100) : ℚ) / 100

/-- One output row of the cleaned table (lines 85-101). -/
structure CleanedRecord where
  created_at_myt : Option String
  order_number : Option String
  customer_email : Option String
  CarrierCode : Option String
  item_name : Option String
  item_ref_id : Option String
  item_quantity : ℚ
  item_unit_price : ℚ
  item_total_price : ℚ
  discount_name : String
  discount_amount : ℚ
  points_redeemed : ℚ
  final_paid_amount : ℚ
  order_total : ℚ
  item_proportion_pct : ℚ
deriving DecidableEq, Repr

/-- Lines 36-101: the record emitted for one deduplicated base row. -/
def mkRecord (deduped drows : List Row) (r : Row) : CleanedRecord :=
  { created_at_myt := r.created_at_myt
    order_number := r.order_number
    customer_email := r.customer_email
    CarrierCode := r.CarrierCode
    item_name := r.item_name
    item_ref_id := r.item_ref_id
    item_quantity := r.item_quantity
    item_unit_price := r.myr_item_unit_amount
    item_total_price := itemTotal r
    discount_name := discountNameOf drows r
    discount_amount := allocatedDiscount deduped drows r
    points_redeemed := pointsOf r
    final_paid_amount := itemTotal r - allocatedDiscount deduped drows r - pointsOf r
    order_total := r.myr_total_amount
    item_proportion_pct := round2 (itemProportion deduped r * 100) }

/-- The whole of `clean_transaction_data` for a table whose schema is complete. -/
def clean_transaction_data (rows : List Row) : List CleanedRecord :=
  (dedupRows (effectiveBaseRows rows)).map
    (mkRecord (dedupRows (effectiveBaseRows rows)) (discountRowsOf rows))

/-- The deduplicated rows belonging to the order named by the string `o`. -/
def orderGroup (deduped : List Row) (o : String) : List Row :=
  deduped.filter (fun x => x.order_number == some o)

/-- Modelled from the spec (§4.3): `orderItemValueSum`, the sum of
`unit_price * quantity` over the order's deduplicated items. -/
def orderItemValueSum (deduped : List Row) (o : String) : ℚ :=
  ((orderGroup deduped o).map itemTotal).sum

/-- Modelled from the spec (§4.3): `orderDiscountTotal`, the sum of
`item_total - paid_amount` over exactly those deduplicated items of the order
that have at least one matching discount row; the discount rows enter only
through the existence test. -/
def orderDiscountTotal (deduped drows : List Row) (o : String) : ℚ :=
  (((orderGroup deduped o).filter (fun x =>
      decide (matchingDiscounts drows (some o) x.item_ref_id ≠ []))).map
    (fun x => itemTotal x - x.myr_paid_amount)).sum

/-- The schema of §6 of the spec: every column the source reads. -/
def requiredCols : List String :=
  ["created_at_myt", "order_number", "customer_email", "CarrierCode", "item_name",
   "item_ref_id", "item_quantity", "myr_item_unit_amount", "myr_total_amount",
   "myr_paid_amount", "myr_points_redeemed_value", "discountName"]

/-- An input table: the columns actually present, plus the row data. -/
structure Table where
  cols : List String
  rows : List Row

/-- A pandas column access: a `KeyError` carrying the column name when the
column is absent. -/
def need (t : Table) (c : String) : Except String Unit :=
  if c ∈ t.cols then Except.ok () else Except.error c

/-- Successive column accesses, failing at the first absent column. -/
def needAll (t : Table) : List String → Except String Unit
  | [] => Except.ok ()
  | c :: cs =>
    match need t c with
    | Except.error e => Except.error e
    | Except.ok _ => needAll t cs

/-- Whether the loop body of lines 62-71 reaches line 70 for this base row:
some item of the order has a matching discount row. -/
def needsPaidFor (deduped drows : List Row) (r : Row) : Bool :=
  (orderItemsOf deduped r).any (fun x =>
    decide (matchingDiscounts drows r.order_number x.item_ref_id ≠ []))

/-- The column accesses performed while emitting one record, in source order:
line 50, then line 70 (only when some item has a matching discount row), then
lines 77 and 85-99. -/
def rowCheck (t : Table) (needsPaid : Bool) : Except String Unit :=
  match needAll t ["myr_item_unit_amount", "item_quantity"] with
  | Except.error e => Except.error e
  | Except.ok _ =>
    match needAll t (if needsPaid then ["myr_paid_amount"] else []) with
    | Except.error e => Except.error e
    | Except.ok _ =>
      needAll t ["myr_points_redeemed_value", "created_at_myt", "customer_email",
                 "CarrierCode", "item_name", "myr_total_amount"]

/-- The column accesses of the loop over the deduplicated rows. -/
def checkRows (t : Table) (deduped drows : List Row) : List Row → Except String Unit
  | [] => Except.ok ()
  | r :: rs =>
    match rowCheck t (needsPaidFor deduped drows r) with
    | Except.error e => Except.error e
    | Except.ok _ => checkRows t deduped drows rs

/-- The operation `allocate` of §6: `clean_transaction_data` on a table whose
schema may be incomplete.  Column presence is tested at the access points of
the source (lines 21, 24, 50, 70, 77, 85-99); an uncaught access failure
aborts the call with the column name and no output. -/
def allocate (t : Table) : Except String (List CleanedRecord) :=
  match needAll t ["order_number", "item_ref_id", "discountName"] with
  | Except.error e => Except.error e
  | Except.ok _ =>
    match checkRows t (dedupRows (effectiveBaseRows t.rows)) (discountRowsOf t.rows)
        (dedupRows (effectiveBaseRows t.rows)) with
    | Except.error e => Except.error e
    | Except.ok _ => Except.ok (clean_transaction_data t.rows)

/-- A row template with every cell null and every numeric cell 0. -/
def row0 : Row :=
  { created_at_myt := none, order_number := none, customer_email := none,
    CarrierCode := none, item_name := none, item_ref_id := none,
    item_quantity := 0, myr_item_unit_amount := 0, myr_total_amount := 0,
    myr_paid_amount := 0, myr_points_redeemed_value := none, discountName := none }

/-- A base row for order `o`, item `b`. -/
def rb1 : Row :=
  { row0 with order_number := some "o", item_ref_id := some "b" }

/-- A discount row for order `o`, item `a`; the pair `(o, a)` occurs only here. -/
def rd1 : Row :=
  { row0 with order_number := some "o", item_ref_id := some "a", discountName := some "D" }

/-- An input whose pair `(o, a)` occurs only in a discount-bearing row. -/
def ex1 : List Row := [rd1, rb1]

/-- Scenario B of the spec, reduced to the discounted item: price 100, qty 1, paid 80. -/
def b2 : Row :=
  { row0 with
    order_number := some "o2"
    item_ref_id := some "a"
    myr_item_unit_amount := 100
    item_quantity := 1
    myr_paid_amount := 80 }

/-- The discount row marking `b2`'s item. -/
def d2 : Row :=
  { row0 with order_number := some "o2", item_ref_id := some "a", discountName := some "SALE10" }

/-- A one-item discounted order. -/
def ex2 : List Row := [b2, d2]

/-- A map on rows that changes a discount row's amount but keeps its keys. -/
def f3 : Row → Row :=
  fun d => { d with myr_paid_amount := d.myr_paid_amount + 1 }

/-- Order `o`, item `a`: value 5, paid 0, discount-marked. -/
def a4 : Row :=
  { row0 with
    order_number := some "o"
    item_ref_id := some "a"
    myr_item_unit_amount := 5
    item_quantity := 1 }

/-- Order `o`, item `b`: value -5, cancelling the order's item value sum. -/
def b4 : Row :=
  { row0 with
    order_number := some "o"
    item_ref_id := some "b"
    myr_item_unit_amount := -5
    item_quantity := 1 }

/-- The discount row marking `a4`'s item. -/
def d4 : Row :=
  { row0 with order_number := some "o", item_ref_id := some "a", discountName := some "D" }

/-- An order with zero item value sum but positive order discount total. -/
def ex4 : List Row := [a4, b4, d4]

/-- First duplicate base row of key `o_a`: null email, price 10. -/
def r51 : Row :=
  { row0 with
    order_number := some "o"
    item_ref_id := some "a"
    myr_item_unit_amount := 10
    item_quantity := 1 }

/-- Second duplicate base row of key `o_a`: non-null email, price 99. -/
def r52 : Row :=
  { row0 with
    order_number := some "o"
    item_ref_id := some "a"
    myr_item_unit_amount := 99
    item_quantity := 3
    customer_email := some "x@y" }

/-- Duplicate base rows differing in values, the first with a null field. -/
def ex5 : List Row := [r51, r52]

/-- A plain base row of order `o`, item `b`. -/
def r71 : Row :=
  { row0 with order_number := some "o", item_ref_id := some "b" }

/-- A row whose discountName is the empty string (non-null). -/
def r72 : Row :=
  { row0 with order_number := some "o", item_ref_id := some "a", discountName := some "" }

/-- An input holding a null-discountName row and an empty-string-discountName row. -/
def ex7 : List Row := [r71, r72]

/-- A base row whose order_number is null. -/
def r9 : Row :=
  { row0 with
    item_ref_id := some "a"
    myr_item_unit_amount := 10
    item_quantity := 1
    myr_paid_amount := 10 }

/-- An input with a single null-order row. -/
def ex9 : List Row := [r9]

/-- Order id `a_b`, item id `c`: key collides with `rB`. -/
def rA : Row :=
  { row0 with order_number := some "a_b", item_ref_id := some "c" }

/-- Order id `a`, item id `b_c`: key collides with `rA`. -/
def rB : Row :=
  { row0 with order_number := some "a", item_ref_id := some "b_c" }

/-- A table whose schema lacks `myr_paid_amount` and whose data never reaches line 70. -/
def t8 : Table :=
  { cols := ["created_at_myt", "order_number", "customer_email", "CarrierCode", "item_name",
             "item_ref_id", "item_quantity", "myr_item_unit_amount", "myr_total_amount",
             "myr_points_redeemed_value", "discountName"],
    rows := [{ row0 with
               order_number := some "o"
               item_ref_id := some "a"
               myr_item_unit_amount := 10
               item_quantity := 1 }] }

/-- A table whose schema lacks `discountName` (an always-accessed column). -/
def t8e : Table :=
  { cols := ["order_number", "item_ref_id"], rows := [] }

theorem length_insertKey (k : String) : ∀ l : List String, (insertKey k l).length = l.length + 1 := by
  intro l
  induction l with
  | nil => rfl
  | cons x xs ih =>
    unfold insertKey
    split
    · rfl
    · simp [ih]

theorem length_sortKeys : ∀ ks : List String, (sortKeys ks).length = ks.length := by
  intro ks
  induction ks with
  | nil => rfl
  | cons k ks ih =>
    show (insertKey k (sortKeys ks)).length = ks.length + 1
    rw [length_insertKey, ih]

theorem mem_insertKey {a k : String} : ∀ {l : List String}, a ∈ insertKey k l ↔ a = k ∨ a ∈ l := by
  intro l
  induction l with
  | nil => simp [insertKey]
  | cons x xs ih =>
    unfold insertKey
    split
    · simp [List.mem_cons]
    · simp only [List.mem_cons, ih]
      tauto

theorem mem_sortKeys {a : String} : ∀ {ks : List String}, a ∈ sortKeys ks ↔ a ∈ ks := by
  intro ks
  induction ks with
  | nil => simp [sortKeys]
  | cons k ks ih =>
    show a ∈ insertKey k (sortKeys ks) ↔ _
    rw [mem_insertKey, ih]
    simp [List.mem_cons]

theorem round2_zero : round2 0 = 0 := by
  unfold round2 roundHalfEven
  norm_num

@[simp]
theorem eqCell_none_right (a : Option String) : eqCell a none = false := by
  cases a <;> rfl

theorem eqCell_some_right (a : Option String) (s : String) : eqCell a (some s) = (a == some s) := by
  cases a <;> rfl

theorem orderItemsOf_orderGroup (deduped : List Row) {r : Row} {o : String}
    (h : r.order_number = some o) : orderItemsOf deduped r = orderGroup deduped o := by
  unfold orderItemsOf orderGroup
  refine List.filter_congr (fun x _ => ?_)
  rw [h, eqCell_some_right]

theorem orderItemsTotal_eq (deduped : List Row) {r : Row} {o : String}
    (h : r.order_number = some o) : orderItemsTotal deduped r = orderItemValueSum deduped o := by
  unfold orderItemsTotal orderItemValueSum
  rw [orderItemsOf_orderGroup deduped h]

theorem sum_map_if_eq_filter (l : List Row) (q : Row → Prop) [DecidablePred q] (f : Row → ℚ) :
    (l.map (fun x => if q x then 0 else f x)).sum
      = ((l.filter (fun x => decide ¬ q x)).map f).sum := by
  induction l with
  | nil => rfl
  | cons a l ih =>
    by_cases h : q a
    · simp [h, ih]
    · simp [h, ih]

theorem totalOrderDiscount_eq (deduped drows : List Row) {r : Row} {o : String}
    (h : r.order_number = some o) :
    totalOrderDiscount deduped drows r = orderDiscountTotal deduped drows o := by
  unfold totalOrderDiscount orderDiscountTotal
  rw [orderItemsOf_orderGroup deduped h]
  simp only [h]
  exact sum_map_if_eq_filter _ _ _

/-- C2: for every order whose `orderItemValueSum` is strictly positive, the
discount amounts of that order's output records sum exactly (over exact
rational arithmetic) to the order's `orderDiscountTotal`. -/
theorem claim2_conservation (rows : List Row) (o : String)
    (h : 0 < orderItemValueSum (dedupRows (effectiveBaseRows rows)) o) :
    (((clean_transaction_data rows).filter
        (fun c => c.order_number == some o)).map (fun c => c.discount_amount)).sum
      = orderDiscountTotal (dedupRows (effectiveBaseRows rows)) (discountRowsOf rows) o := by
  set D := dedupRows (effectiveBaseRows rows) with hDdef
  set dr := discountRowsOf rows with hdrdef
  have hclean : clean_transaction_data rows = D.map (mkRecord D dr) := rfl
  rw [hclean, List.filter_map, List.map_map]
  have hpred : ((fun c : CleanedRecord => c.order_number == some o) ∘ mkRecord D dr)
      = fun r => r.order_number == some o := rfl
  rw [hpred]
  have hG : D.filter (fun r => r.order_number == some o) = orderGroup D o := rfl
  rw [hG]
  have hmap : ∀ r ∈ orderGroup D o,
      ((fun c : CleanedRecord => c.discount_amount) ∘ mkRecord D dr) r
        = (orderDiscountTotal D dr o / orderItemValueSum D o) * itemTotal r := by
    intro r hr
    have hro : r.order_number = some o := eq_of_beq (List.mem_filter.mp hr).2
    show allocatedDiscount D dr r = _
    unfold allocatedDiscount itemProportion
    rw [totalOrderDiscount_eq D dr hro, orderItemsTotal_eq D hro, if_pos h,
      div_mul_eq_mul_div, mul_div_assoc]
  rw [List.map_congr_left hmap, List.sum_map_mul_left]
  have hsum : ((orderGroup D o).map itemTotal).sum = orderItemValueSum D o := rfl
  rw [hsum, div_mul_cancel₀ _ (ne_of_gt h)]

/-- C3: for a deduplicated row of order `o`, the order discount of lines
60-71 equals the spec's `orderDiscountTotal` (the sum of `item_total -
paid_amount` over exactly the discount-gated items of the order), and it is
unchanged by any rewriting of the discount rows that preserves their
`order_number` and `item_ref_id`, since only the existence of a matching
discount row is read. -/
theorem claim3_gate (rows : List Row) (r : Row) (o : String)
    (_hr : r ∈ dedupRows (effectiveBaseRows rows)) (ho : r.order_number = some o)
    (f : Row → Row)
    (hf : ∀ d, (f d).order_number = d.order_number ∧ (f d).item_ref_id = d.item_ref_id) :
    totalOrderDiscount (dedupRows (effectiveBaseRows rows)) (discountRowsOf rows) r
        = orderDiscountTotal (dedupRows (effectiveBaseRows rows)) (discountRowsOf rows) o
      ∧ totalOrderDiscount (dedupRows (effectiveBaseRows rows))
          ((discountRowsOf rows).map f) r
        = totalOrderDiscount (dedupRows (effectiveBaseRows rows)) (discountRowsOf rows) r := by
  refine ⟨totalOrderDiscount_eq _ _ ho, ?_⟩
  unfold totalOrderDiscount
  refine congrArg List.sum (List.map_congr_left (fun x _ => ?_))
  have hm : matchingDiscounts ((discountRowsOf rows).map f) r.order_number x.item_ref_id
      = (matchingDiscounts (discountRowsOf rows) r.order_number x.item_ref_id).map f := by
    unfold matchingDiscounts
    rw [List.filter_map]
    refine congrArg (List.map f) (List.filter_congr (fun d _ => ?_))
    show (eqCell (f d).order_number r.order_number && eqCell (f d).item_ref_id x.item_ref_id) = _
    rw [(hf d).1, (hf d).2]
  rw [hm]
  simp only [List.map_eq_nil_iff]

/-- C4: when an order's `orderItemValueSum` is 0 while its
`orderDiscountTotal` is positive, every output record of that order carries
proportion 0 and discount 0: the discount is dropped. -/
theorem claim4_drop (rows : List Row) (o : String) (c : CleanedRecord)
    (hS : orderItemValueSum (dedupRows (effectiveBaseRows rows)) o = 0)
    (_hD : 0 < orderDiscountTotal (dedupRows (effectiveBaseRows rows)) (discountRowsOf rows) o)
    (hc : c ∈ clean_transaction_data rows) (ho : c.order_number = some o) :
    c.item_proportion_pct = 0 ∧ c.discount_amount = 0 := by
  have hc2 : c ∈ (dedupRows (effectiveBaseRows rows)).map
      (mkRecord (dedupRows (effectiveBaseRows rows)) (discountRowsOf rows)) := hc
  obtain ⟨r, _hr, rfl⟩ := List.mem_map.mp hc2
  have hro : r.order_number = some o := ho
  have hprop : itemProportion (dedupRows (effectiveBaseRows rows)) r = 0 := by
    unfold itemProportion
    rw [orderItemsTotal_eq _ hro, hS, if_neg (lt_irrefl 0)]
  constructor
  · show round2 (itemProportion (dedupRows (effectiveBaseRows rows)) r * 100) = 0
    rw [hprop, zero_mul, round2_zero]
  · show allocatedDiscount (dedupRows (effectiveBaseRows rows)) (discountRowsOf rows) r = 0
    unfold allocatedDiscount
    rw [hprop, mul_zero]

/-- C6: every output record satisfies `final_paid_amount = item_total_price -
discount_amount - points_redeemed` as an exact algebraic identity over the
emitted field values. -/
theorem claim6_formula (rows : List Row) (c : CleanedRecord)
    (hc : c ∈ clean_transaction_data rows) :
    c.final_paid_amount = c.item_total_price - c.discount_amount - c.points_redeemed := by
  have hc2 : c ∈ (dedupRows (effectiveBaseRows rows)).map
      (mkRecord (dedupRows (effectiveBaseRows rows)) (discountRowsOf rows)) := hc
  obtain ⟨r, _hr, rfl⟩ := List.mem_map.mp hc2
  rfl

/-- C1 (counterexample): in `ex1` the pair `(o, a)` occurs in an input row —
a discount-bearing one — yet no output record carries that pair, so not every
ItemKey present in the input appears in exactly one output record. -/
theorem claim1_counterexample :
    rd1 ∈ ex1 ∧ rd1.order_number = some "o" ∧ rd1.item_ref_id = some "a"
    ∧ (clean_transaction_data ex1).countP
        (fun c => c.order_number == some "o" && c.item_ref_id == some "a") = 0 := by
  refine ⟨by decide, rfl, rfl, by decide⟩

/-- C1 (amended): the output has exactly one record per distinct
`unique_key` occurring among the base rows (among all rows when no base row
exists); keys occurring only in discount-bearing rows contribute nothing. -/
theorem claim1_amended (rows : List Row) :
    (clean_transaction_data rows).length
      = ((effectiveBaseRows rows).map ukey).toFinset.card := by
  show ((dedupRows (effectiveBaseRows rows)).map _).length = _
  rw [List.length_map]
  show ((sortKeys ((effectiveBaseRows rows).map ukey).dedup).map _).length = _
  rw [List.length_map, length_sortKeys]
  exact (List.card_toFinset _).symm

/-- C5 (counterexample): both rows of `ex5` are base rows of one ItemKey; the
first has a null `customer_email` but the single output record carries the
second row's email while keeping the first row's unit price — a field-wise
merge, not the first row's values. -/
theorem claim5_counterexample :
    baseRowsOf ex5 = [r51, r52] ∧ ukey r51 = ukey r52 ∧ r51.customer_email = none
    ∧ (clean_transaction_data ex5).map (fun c => c.customer_email) = [some "x@y"]
    ∧ (clean_transaction_data ex5).map (fun c => c.item_unit_price) = [10] := by
  refine ⟨by decide, rfl, rfl, by decide, by decide⟩

/-- C5 (amended): for every key among the base rows there is an output record
whose nullable fields each hold the first non-null value of that field over
the key's group in input order, and whose numeric price, quantity and order
total come from the group's first row. -/
theorem claim5_amended (rows : List Row) (k : String)
    (hk : k ∈ (effectiveBaseRows rows).map ukey) :
    ∃ c ∈ clean_transaction_data rows,
      c.created_at_myt = (keyGroup (effectiveBaseRows rows) k).findSome? (fun r => r.created_at_myt)
      ∧ c.order_number = (keyGroup (effectiveBaseRows rows) k).findSome? (fun r => r.order_number)
      ∧ c.customer_email = (keyGroup (effectiveBaseRows rows) k).findSome? (fun r => r.customer_email)
      ∧ c.CarrierCode = (keyGroup (effectiveBaseRows rows) k).findSome? (fun r => r.CarrierCode)
      ∧ c.item_name = (keyGroup (effectiveBaseRows rows) k).findSome? (fun r => r.item_name)
      ∧ c.item_ref_id = (keyGroup (effectiveBaseRows rows) k).findSome? (fun r => r.item_ref_id)
      ∧ c.item_quantity
          = (((keyGroup (effectiveBaseRows rows) k).head?).map (fun r => r.item_quantity)).getD 0
      ∧ c.item_unit_price
          = (((keyGroup (effectiveBaseRows rows) k).head?).map (fun r => r.myr_item_unit_amount)).getD 0
      ∧ c.order_total
          = (((keyGroup (effectiveBaseRows rows) k).head?).map (fun r => r.myr_total_amount)).getD 0
      ∧ c.points_redeemed
          = ((keyGroup (effectiveBaseRows rows) k).findSome? (fun r => r.myr_points_redeemed_value)).getD 0 := by
  refine ⟨mkRecord (dedupRows (effectiveBaseRows rows)) (discountRowsOf rows)
      (mergeGroup (keyGroup (effectiveBaseRows rows) k)), ?_, ?_⟩
  · have hk2 : k ∈ sortKeys ((effectiveBaseRows rows).map ukey).dedup :=
      mem_sortKeys.mpr (List.mem_dedup.mpr hk)
    exact List.mem_map_of_mem _ (List.mem_map_of_mem _ hk2)
  · exact ⟨rfl, rfl, rfl, rfl, rfl, rfl, rfl, rfl, rfl, rfl⟩

/-- C7 (counterexample): the row `r72` has the empty string — not null — as
its `discountName`, and it is placed among the discount rows, not the base
rows, because line 25 tests nullness (`isna`), not emptiness. -/
theorem claim7_counterexample :
    r72 ∈ ex7 ∧ r72.discountName = some ""
    ∧ r72 ∉ baseRowsOf ex7 ∧ r72 ∈ discountRowsOf ex7 := by
  refine ⟨by decide, rfl, by decide, by decide⟩

/-- C7 (amended): a raw row is a base row exactly when its `discountName` is
null, and a discount row exactly when its `discountName` is non-null — the
empty string included. -/
theorem claim7_amended (rows : List Row) (r : Row) (hr : r ∈ rows) :
    (r ∈ baseRowsOf rows ↔ r.discountName = none)
    ∧ (r ∈ discountRowsOf rows ↔ r.discountName ≠ none) := by
  constructor
  · simp [baseRowsOf, List.mem_filter, hr, Option.isNone_iff_eq_none]
  · simp [discountRowsOf, List.mem_filter, hr, Option.isSome_iff_ne_none]

/-- C10: the dedup key concatenates order id, `_` and item id, so the
distinct pairs `(a_b, c)` and `(a, b_c)` share the key `a_b_c` and collapse
into a single output record. -/
theorem claim10_key_collision :
    ukey rA = "a_b_c" ∧ ukey rB = "a_b_c" ∧ rA.order_number ≠ rB.order_number
    ∧ (clean_transaction_data [rA, rB]).length = 1 := by
  refine ⟨rfl, rfl, by decide, by decide⟩

theorem ex9_pct : (clean_transaction_data ex9).map (fun c => c.item_proportion_pct) = [0] := by
  have h0 : dedupRows (effectiveBaseRows ex9) = [r9] := by decide
  have hempty : orderItemsOf [r9] r9 = [] := by decide
  have hprop : itemProportion [r9] r9 = 0 := by
    unfold itemProportion orderItemsTotal
    rw [hempty]
    simp
  show ((dedupRows (effectiveBaseRows ex9)).map
      (mkRecord (dedupRows (effectiveBaseRows ex9)) (discountRowsOf ex9))).map
      (fun c => c.item_proportion_pct) = [0]
  rw [h0, List.map_map]
  show [round2 (itemProportion [r9] r9 * 100)] = [0]
  rw [hprop, zero_mul, round2_zero]

/-- C9 (counterexample): the single input row of `ex9` has a null
`order_number`; it is deduplicated under key `nan_a` and emitted, but its
order group at line 47 is empty — it does not even contain the row itself,
because a pandas null equals nothing — so it is not processed like an
ordinary one-item order (whose proportion would be 100, not 0). -/
theorem claim9_counterexample :
    dedupRows (effectiveBaseRows ex9) = [r9] ∧ r9.order_number = none
    ∧ ukey r9 = "nan_a"
    ∧ orderItemsOf (dedupRows (effectiveBaseRows ex9)) r9 = []
    ∧ (clean_transaction_data ex9).map (fun c => c.item_proportion_pct) = [0] := by
  refine ⟨by decide, rfl, rfl, by decide, ex9_pct⟩

/-- C9 (amended): a null `order_id` becomes the literal string `nan` inside
the dedup key, and rows with null identifiers are neither excluded nor a
failure; but the per-order aggregation compares `order_number` by pandas
equality, under which null matches nothing, so every output record with a
null `order_number` has an empty order group: proportion 0 and discount 0,
while still being emitted. -/
theorem claim9_amended :
    (∀ r : Row, r.order_number = none → ukey r = "nan" ++ "_" ++ cellStr r.item_ref_id)
    ∧ (∀ (rows : List Row), ∀ c ∈ clean_transaction_data rows, c.order_number = none →
        c.item_proportion_pct = 0 ∧ c.discount_amount = 0) := by
  constructor
  · intro r h
    unfold ukey
    rw [h]
    rfl
  · intro rows c hc hnone
    have hc2 : c ∈ (dedupRows (effectiveBaseRows rows)).map
        (mkRecord (dedupRows (effectiveBaseRows rows)) (discountRowsOf rows)) := hc
    obtain ⟨r, _hr, rfl⟩ := List.mem_map.mp hc2
    have hro : r.order_number = none := hnone
    have hempty : orderItemsOf (dedupRows (effectiveBaseRows rows)) r = [] := by
      unfold orderItemsOf
      simp [hro]
    have hprop : itemProportion (dedupRows (effectiveBaseRows rows)) r = 0 := by
      unfold itemProportion orderItemsTotal
      rw [hempty]
      simp
    constructor
    · show round2 (itemProportion (dedupRows (effectiveBaseRows rows)) r * 100) = 0
      rw [hprop, zero_mul, round2_zero]
    · show allocatedDiscount (dedupRows (effectiveBaseRows rows)) (discountRowsOf rows) r = 0
      unfold allocatedDiscount
      rw [hprop, mul_zero]

theorem need_error {t : Table} {c e : String} (h : need t c = Except.error e) :
    e = c ∧ c ∉ t.cols := by
  unfold need at h
  split at h
  · exact absurd h (by simp)
  · exact ⟨(Except.error.injEq _ _ ▸ h).symm, by assumption⟩

theorem needAll_error {t : Table} :
    ∀ {cs : List String} {e : String}, needAll t cs = Except.error e → e ∈ cs ∧ e ∉ t.cols := by
  intro cs
  induction cs with
  | nil => intro e h; exact absurd h (by simp [needAll])
  | cons c cs ih =>
    intro e h
    unfold needAll at h
    cases hc : need t c with
    | error e2 =>
      rw [hc] at h
      obtain ⟨he2, hnc⟩ := need_error hc
      cases h
      exact ⟨by simp [he2], he2 ▸ hnc⟩
    | ok u =>
      rw [hc] at h
      obtain ⟨hmem, hnc⟩ := ih h
      exact ⟨by simp [hmem], hnc⟩

theorem rowCheck_error {t : Table} {b : Bool} {e : String}
    (h : rowCheck t b = Except.error e) : e ∈ requiredCols ∧ e ∉ t.cols := by
  unfold rowCheck at h
  cases h1 : needAll t ["myr_item_unit_amount", "item_quantity"] with
  | error e1 =>
    rw [h1] at h
    cases h
    obtain ⟨hmem, hnc⟩ := needAll_error h1
    refine ⟨?_, hnc⟩
    have hsub : ["myr_item_unit_amount", "item_quantity"] ⊆ requiredCols := by decide
    exact hsub hmem
  | ok u1 =>
    rw [h1] at h
    cases h2 : needAll t (if b then ["myr_paid_amount"] else []) with
    | error e2 =>
      rw [h2] at h
      cases h
      obtain ⟨hmem, hnc⟩ := needAll_error h2
      refine ⟨?_, hnc⟩
      cases b with
      | true => simp at hmem; simp [hmem, requiredCols]
      | false => simp at hmem
    | ok u2 =>
      rw [h2] at h
      obtain ⟨hmem, hnc⟩ := needAll_error h
      refine ⟨?_, hnc⟩
      have hsub : ["myr_points_redeemed_value", "created_at_myt", "customer_email",
          "CarrierCode", "item_name", "myr_total_amount"] ⊆ requiredCols := by decide
      exact hsub hmem

theorem checkRows_error {t : Table} {deduped drows : List Row} :
    ∀ {l : List Row} {e : String},
      checkRows t deduped drows l = Except.error e → e ∈ requiredCols ∧ e ∉ t.cols := by
  intro l
  induction l with
  | nil => intro e h; exact absurd h (by simp [checkRows])
  | cons r rs ih =>
    intro e h
    unfold checkRows at h
    cases hr : rowCheck t (needsPaidFor deduped drows r) with
    | error e1 =>
      rw [hr] at h
      cases h
      exact rowCheck_error hr
    | ok u =>
      rw [hr] at h
      exact ih h

/-- C8 (amended, soundness direction): whenever `allocate` fails, it fails
with the name of a required column that is indeed absent from the table, and
produces no output. -/
theorem claim8_error_names_missing (t : Table) (e : String)
    (h : allocate t = Except.error e) : e ∈ requiredCols ∧ e ∉ t.cols := by
  unfold allocate at h
  cases h1 : needAll t ["order_number", "item_ref_id", "discountName"] with
  | error e1 =>
    rw [h1] at h
    cases h
    obtain ⟨hmem, hnc⟩ := needAll_error h1
    refine ⟨?_, hnc⟩
    have hsub : ["order_number", "item_ref_id", "discountName"] ⊆ requiredCols := by decide
    exact hsub hmem
  | ok u =>
    rw [h1] at h
    cases h2 : checkRows t (dedupRows (effectiveBaseRows t.rows)) (discountRowsOf t.rows)
        (dedupRows (effectiveBaseRows t.rows)) with
    | error e2 =>
      rw [h2] at h
      cases h
      exact checkRows_error h2
    | ok u2 =>
      rw [h2] at h
      exact absurd h (by simp)

/-- C8 (counterexample): the table `t8` lacks the required column
`myr_paid_amount`, yet `allocate` succeeds with full output, because the
column is only accessed at line 70 and no item of `t8` has a matching
discount row; required columns are thus not checked up front. -/
theorem claim8_counterexample :
    "myr_paid_amount" ∈ requiredCols ∧ "myr_paid_amount" ∉ t8.cols
    ∧ allocate t8 = Except.ok (clean_transaction_data t8.rows) := by
  refine ⟨by decide, by decide, rfl⟩

theorem ex2_sum_pos : 0 < orderItemValueSum (dedupRows (effectiveBaseRows ex2)) "o2" := by
  have h1 : orderGroup (dedupRows (effectiveBaseRows ex2)) "o2" = [b2] := by decide
  unfold orderItemValueSum
  rw [h1]
  norm_num [itemTotal, b2, row0]

theorem ex4_sum_zero : orderItemValueSum (dedupRows (effectiveBaseRows ex4)) "o" = 0 := by
  have h1 : orderGroup (dedupRows (effectiveBaseRows ex4)) "o" = [a4, b4] := by decide
  unfold orderItemValueSum
  rw [h1]
  norm_num [itemTotal, a4, b4, row0]

theorem ex4_disc_pos :
    0 < orderDiscountTotal (dedupRows (effectiveBaseRows ex4)) (discountRowsOf ex4) "o" := by
  have h1 : (orderGroup (dedupRows (effectiveBaseRows ex4)) "o").filter
      (fun x => decide (matchingDiscounts (discountRowsOf ex4) (some "o") x.item_ref_id ≠ []))
      = [a4] := by decide
  unfold orderDiscountTotal
  rw [h1]
  norm_num [itemTotal, a4, row0]

theorem claim2_witness :
    0 < orderItemValueSum (dedupRows (effectiveBaseRows ex2)) "o2"
    ∧ (((clean_transaction_data ex2).filter
          (fun c => c.order_number == some "o2")).map (fun c => c.discount_amount)).sum
        = orderDiscountTotal (dedupRows (effectiveBaseRows ex2)) (discountRowsOf ex2) "o2" :=
  ⟨ex2_sum_pos, claim2_conservation ex2 "o2" ex2_sum_pos⟩

theorem claim3_witness :
    b2 ∈ dedupRows (effectiveBaseRows ex2) ∧ b2.order_number = some "o2"
    ∧ (totalOrderDiscount (dedupRows (effectiveBaseRows ex2)) (discountRowsOf ex2) b2
        = orderDiscountTotal (dedupRows (effectiveBaseRows ex2)) (discountRowsOf ex2) "o2"
      ∧ totalOrderDiscount (dedupRows (effectiveBaseRows ex2)) ((discountRowsOf ex2).map f3) b2
        = totalOrderDiscount (dedupRows (effectiveBaseRows ex2)) (discountRowsOf ex2) b2) :=
  ⟨by decide, rfl, claim3_gate ex2 b2 "o2" (by decide) rfl f3 (fun d => ⟨rfl, rfl⟩)⟩

theorem claim4_witness :
    orderItemValueSum (dedupRows (effectiveBaseRows ex4)) "o" = 0
    ∧ 0 < orderDiscountTotal (dedupRows (effectiveBaseRows ex4)) (discountRowsOf ex4) "o"
    ∧ mkRecord (dedupRows (effectiveBaseRows ex4)) (discountRowsOf ex4) a4
        ∈ clean_transaction_data ex4
    ∧ ((mkRecord (dedupRows (effectiveBaseRows ex4)) (discountRowsOf ex4) a4).item_proportion_pct = 0
      ∧ (mkRecord (dedupRows (effectiveBaseRows ex4)) (discountRowsOf ex4) a4).discount_amount = 0) := by
  have hmem : mkRecord (dedupRows (effectiveBaseRows ex4)) (discountRowsOf ex4) a4
      ∈ clean_transaction_data ex4 :=
    List.mem_map_of_mem _ (by decide : a4 ∈ dedupRows (effectiveBaseRows ex4))
  exact ⟨ex4_sum_zero, ex4_disc_pos, hmem,
    claim4_drop ex4 "o" _ ex4_sum_zero ex4_disc_pos hmem rfl⟩

theorem claim5_witness :
    "o_a" ∈ (effectiveBaseRows ex5).map ukey
    ∧ (∃ c ∈ clean_transaction_data ex5,
        c.created_at_myt = (keyGroup (effectiveBaseRows ex5) "o_a").findSome? (fun r => r.created_at_myt)
        ∧ c.order_number = (keyGroup (effectiveBaseRows ex5) "o_a").findSome? (fun r => r.order_number)
        ∧ c.customer_email = (keyGroup (effectiveBaseRows ex5) "o_a").findSome? (fun r => r.customer_email)
        ∧ c.CarrierCode = (keyGroup (effectiveBaseRows ex5) "o_a").findSome? (fun r => r.CarrierCode)
        ∧ c.item_name = (keyGroup (effectiveBaseRows ex5) "o_a").findSome? (fun r => r.item_name)
        ∧ c.item_ref_id = (keyGroup (effectiveBaseRows ex5) "o_a").findSome? (fun r => r.item_ref_id)
        ∧ c.item_quantity
            = (((keyGroup (effectiveBaseRows ex5) "o_a").head?).map (fun r => r.item_quantity)).getD 0
        ∧ c.item_unit_price
            = (((keyGroup (effectiveBaseRows ex5) "o_a").head?).map (fun r => r.myr_item_unit_amount)).getD 0
        ∧ c.order_total
            = (((keyGroup (effectiveBaseRows ex5) "o_a").head?).map (fun r => r.myr_total_amount)).getD 0
        ∧ c.points_redeemed
            = ((keyGroup (effectiveBaseRows ex5) "o_a").findSome? (fun r => r.myr_points_redeemed_value)).getD 0) :=
  ⟨by decide, claim5_amended ex5 "o_a" (by decide)⟩

theorem claim6_witness :
    mkRecord (dedupRows (effectiveBaseRows ex2)) (discountRowsOf ex2) b2
      ∈ clean_transaction_data ex2
    ∧ (mkRecord (dedupRows (effectiveBaseRows ex2)) (discountRowsOf ex2) b2).final_paid_amount
      = (mkRecord (dedupRows (effectiveBaseRows ex2)) (discountRowsOf ex2) b2).item_total_price
        - (mkRecord (dedupRows (effectiveBaseRows ex2)) (discountRowsOf ex2) b2).discount_amount
        - (mkRecord (dedupRows (effectiveBaseRows ex2)) (discountRowsOf ex2) b2).points_redeemed := by
  have hmem : mkRecord (dedupRows (effectiveBaseRows ex2)) (discountRowsOf ex2) b2
      ∈ clean_transaction_data ex2 :=
    List.mem_map_of_mem _ (by decide : b2 ∈ dedupRows (effectiveBaseRows ex2))
  exact ⟨hmem, claim6_formula ex2 _ hmem⟩

theorem claim7_witness :
    r71 ∈ ex7
    ∧ ((r71 ∈ baseRowsOf ex7 ↔ r71.discountName = none)
      ∧ (r71 ∈ discountRowsOf ex7 ↔ r71.discountName ≠ none)) :=
  ⟨by decide, claim7_amended ex7 r71 (by decide)⟩

theorem claim8_witness :
    allocate t8e = Except.error "discountName"
    ∧ ("discountName" ∈ requiredCols ∧ "discountName" ∉ t8e.cols) :=
  ⟨rfl, claim8_error_names_missing t8e "discountName" rfl⟩

theorem claim9_witness :
    mkRecord (dedupRows (effectiveBaseRows ex9)) (discountRowsOf ex9) r9
      ∈ clean_transaction_data ex9
    ∧ (mkRecord (dedupRows (effectiveBaseRows ex9)) (discountRowsOf ex9) r9).order_number = none
    ∧ ((mkRecord (dedupRows (effectiveBaseRows ex9)) (discountRowsOf ex9) r9).item_proportion_pct = 0
      ∧ (mkRecord (dedupRows (effectiveBaseRows ex9)) (discountRowsOf ex9) r9).discount_amount = 0) := by
  have hmem : mkRecord (dedupRows (effectiveBaseRows ex9)) (discountRowsOf ex9) r9
      ∈ clean_transaction_data ex9 :=
    List.mem_map_of_mem _ (by decide : r9 ∈ dedupRows (effectiveBaseRows ex9))
  exact ⟨hmem, rfl, claim9_amended.2 ex9 _ hmem rfl⟩

end DiscountProp
